import Mathlib

/-!
Verification development for the reference-intake and command-shaping core of
a real-time motion controller (cartesian trajectory generator plus a chainable
controller variant).  Doubles are modelled as `ℚ`, with `Option ℚ` used where
NaN ("unspecified") is a possible value: `none` stands for NaN, `some q` for a
finite value.  Each stateful C++ callback becomes a pure function from a state
and its inputs to a new state.
-/

/-- A C++ `double` that may be NaN: `none` is NaN, `some q` a finite value. -/
abbrev OptQ := Option ℚ

namespace cartesian_trajectory_generator

/-- Per-joint kinematic limits, mirroring `joint_limits::JointLimits`: each
value field paired with its has-limits flag. -/
structure JointLimits where
  min_position : OptQ
  max_position : OptQ
  has_position_limits : Bool
  max_velocity : OptQ
  has_velocity_limits : Bool
  max_acceleration : OptQ
  has_acceleration_limits : Bool
  max_jerk : OptQ
  has_jerk_limits : Bool
  max_effort : OptQ
  has_effort_limits : Bool
  deriving DecidableEq, Repr

/-- One entry of the `limits` array of a `SetLimitsModeSrvType::Request`. -/
structure LimitsMsg where
  min_position : OptQ
  max_position : OptQ
  max_velocity : OptQ
  max_acceleration : OptQ
  max_jerk : OptQ
  max_effort : OptQ
  deriving DecidableEq, Repr

/-- A `SetLimitsModeSrvType::Request`: parallel arrays of joint names and
requested limit patches. -/
structure SetLimitsRequest where
  names : List String
  limits : List LimitsMsg
  deriving DecidableEq, Repr

/-- The controller state the limits service touches: the configured command
joint names, the immutable limits snapshot taken at configure time
(`configured_joint_limits_`) and the active limits (`joint_limits_`). -/
structure LimitsState where
  command_joint_names : List String
  configured_joint_limits : List JointLimits
  joint_limits : List JointLimits
  deriving DecidableEq, Repr

/-- `update_limit_from_request`: NaN in the request means revert to the
configured value, any other value overrides; the has-limits flag is true iff
the resolved value is not NaN. -/
def update_limit_from_request (request_limit_value configured_limit_value : OptQ) :
    OptQ × Bool :=
  let new_limit_value :=
    match request_limit_value with
    | none => configured_limit_value
    | some v => some v
  (new_limit_value, new_limit_value.isSome)

/-- `update_pos_limits_from_request`: min and max position resolved the same
way; has-limits is true iff at least one of the resolved min/max is not NaN. -/
def update_pos_limits_from_request
    (request_min request_max configured_min configured_max : OptQ) :
    OptQ × OptQ × Bool :=
  let new_min := match request_min with | none => configured_min | some v => some v
  let new_max := match request_max with | none => configured_max | some v => some v
  (new_min, new_max, new_min.isSome || new_max.isSome)

/-- The body of the per-entry update for a known joint: applies the position,
velocity, acceleration, jerk and effort patches of one request entry to the
joint's current limits, resolving NaN against the configured limits. -/
def apply_limits_entry (configured current : JointLimits) (req : LimitsMsg) :
    JointLimits :=
  let pos := update_pos_limits_from_request req.min_position req.max_position
    configured.min_position configured.max_position
  let vel := update_limit_from_request req.max_velocity configured.max_velocity
  let acc := update_limit_from_request req.max_acceleration configured.max_acceleration
  let jrk := update_limit_from_request req.max_jerk configured.max_jerk
  let eff := update_limit_from_request req.max_effort configured.max_effort
  { current with
    min_position := pos.1
    max_position := pos.2.1
    has_position_limits := pos.2.2
    max_velocity := vel.1
    has_velocity_limits := vel.2
    max_acceleration := acc.1
    has_acceleration_limits := acc.2
    max_jerk := jrk.1
    has_jerk_limits := jrk.2
    max_effort := eff.1
    has_effort_limits := eff.2 }

/-- Default joint limits with every field unset (NaN) and every flag false. -/
def nanLimits : JointLimits :=
  { min_position := none, max_position := none, has_position_limits := false
    max_velocity := none, has_velocity_limits := false
    max_acceleration := none, has_acceleration_limits := false
    max_jerk := none, has_jerk_limits := false
    max_effort := none, has_effort_limits := false }

instance : Inhabited JointLimits := ⟨nanLimits⟩

/-- The entry loop of `set_joint_limits_service_callback`: walks the `names`
array, looking each name up in `command_joint_names_`; a known name applies
its request entry to `new_joint_limits`, an unknown name only clears `ok`.
Reading `request->limits[i]` past the end of `limits` is undefined behaviour
in the source and is modelled as `Except.error`. -/
def process_limit_entries (cmdNames : List String) (configured : List JointLimits) :
    List String → List LimitsMsg → List JointLimits → Bool →
    Except Unit (List JointLimits × Bool)
  | [], _, cur, ok => .ok (cur, ok)
  | n :: ns, ls, cur, ok =>
    match cmdNames.indexOf? n with
    | some j =>
      match ls with
      | [] => .error ()
      | l :: ls' =>
        process_limit_entries cmdNames configured ns ls'
          (cur.set j (apply_limits_entry (configured.getD j default) (cur.getD j default) l))
          ok
    | none => process_limit_entries cmdNames configured ns (ls.drop 1) cur false

/-- `set_joint_limits_service_callback`: starts with `ok = true`, clears it on
a names/limits size mismatch (without returning), then runs the entry loop on
a copy of the active limits and finally installs the copy as the new active
limits.  Returns the new state and the response's `ok` flag. -/
def set_joint_limits_service_callback (s : LimitsState) (req : SetLimitsRequest) :
    Except Unit (LimitsState × Bool) :=
  let ok0 : Bool := req.names.length == req.limits.length
  match process_limit_entries s.command_joint_names s.configured_joint_limits
      req.names req.limits s.joint_limits ok0 with
  | .ok (newLimits, ok) => .ok ({ s with joint_limits := newLimits }, ok)
  | .error () => .error ()

/-- A request entry leaving every field as NaN (revert everything). -/
def nanLimitsMsg : LimitsMsg :=
  { min_position := none, max_position := none, max_velocity := none
    max_acceleration := none, max_jerk := none, max_effort := none }

/-! ### Spatial algebra used by `reference_callback`

`tf2::doTransform` on a `geometry_msgs::Vector3` rotates without translating;
on a `geometry_msgs::Quaternion` it composes the transform's rotation with the
message quaternion.  Rotations coming from the tf buffer are finite, so a
transform's quaternion has plain `ℚ` components, while message data may hold
NaN and uses `OptQ` with NaN-propagating arithmetic. -/

/-- NaN-propagating addition of two possibly-NaN doubles. -/
def oAdd : OptQ → OptQ → OptQ
  | some a, some b => some (a + b)
  | _, _ => none

/-- NaN-propagating subtraction. -/
def oSub : OptQ → OptQ → OptQ
  | some a, some b => some (a - b)
  | _, _ => none

/-- Multiplication of a finite double by a possibly-NaN double (NaN absorbs,
as in IEEE arithmetic). -/
def oScale (a : ℚ) : OptQ → OptQ
  | some b => some (a * b)
  | none => none

/-- A 3-vector whose components may be NaN. -/
structure Vec3 where
  x : OptQ
  y : OptQ
  z : OptQ
  deriving DecidableEq, Repr

/-- A quaternion with finite components, as delivered by the tf buffer. -/
structure QuatQ where
  x : ℚ
  y : ℚ
  z : ℚ
  w : ℚ
  deriving DecidableEq, Repr

/-- A message quaternion; in this controller the x/y/z slots of the reference
message's rotation carry Euler angles, so components may be NaN. -/
structure QuatO where
  x : OptQ
  y : OptQ
  z : OptQ
  w : OptQ
  deriving DecidableEq, Repr

/-- A 3x3 rotation matrix with finite entries. -/
structure Mat3 where
  m00 : ℚ
  m01 : ℚ
  m02 : ℚ
  m10 : ℚ
  m11 : ℚ
  m12 : ℚ
  m20 : ℚ
  m21 : ℚ
  m22 : ℚ
  deriving DecidableEq, Repr

/-- `tf2::Matrix3x3::setRotation`: rotation matrix of a quaternion, scaling by
`2 / |q|²` so non-unit quaternions are handled the way tf2 handles them. -/
def rotationMatrix (q : QuatQ) : Mat3 :=
  let d := q.x * q.x + q.y * q.y + q.z * q.z + q.w * q.w
  let s := 2 / d
  let xs := q.x * s
  let ys := q.y * s
  let zs := q.z * s
  let wx := q.w * xs
  let wy := q.w * ys
  let wz := q.w * zs
  let xx := q.x * xs
  let xy := q.x * ys
  let xz := q.x * zs
  let yy := q.y * ys
  let yz := q.y * zs
  let zz := q.z * zs
  { m00 := 1 - (yy + zz), m01 := xy - wz, m02 := xz + wy
    m10 := xy + wz, m11 := 1 - (xx + zz), m12 := yz - wx
    m20 := xz - wy, m21 := yz + wx, m22 := 1 - (xx + yy) }

/-- Rotate a possibly-NaN 3-vector by a finite rotation matrix
(`tf2::doTransform` on `Vector3`: rotation only, no translation). -/
def rotVec (m : Mat3) (v : Vec3) : Vec3 :=
  { x := oAdd (oAdd (oScale m.m00 v.x) (oScale m.m01 v.y)) (oScale m.m02 v.z)
    y := oAdd (oAdd (oScale m.m10 v.x) (oScale m.m11 v.y)) (oScale m.m12 v.z)
    z := oAdd (oAdd (oScale m.m20 v.x) (oScale m.m21 v.y)) (oScale m.m22 v.z) }

/-- `tf2::doTransform` on a quaternion: Hamilton product of the transform's
(finite) rotation with the message quaternion, NaN propagating. -/
def quatTransform (t : QuatQ) (q : QuatO) : QuatO :=
  { x := oAdd (oSub (oAdd (oScale t.w q.x) (oScale t.x q.w)) (oScale t.z q.y)) (oScale t.y q.z)
    y := oAdd (oSub (oAdd (oScale t.w q.y) (oScale t.y q.w)) (oScale t.x q.z)) (oScale t.z q.x)
    z := oAdd (oSub (oAdd (oScale t.w q.z) (oScale t.z q.w)) (oScale t.y q.x)) (oScale t.x q.y)
    w := oSub (oSub (oSub (oScale t.w q.w) (oScale t.x q.x)) (oScale t.y q.y)) (oScale t.z q.z) }

/-- A rigid transform from the tf buffer; only its rotation is consumed by
this controller's transform applications. -/
structure TransformQ where
  rotation : QuatQ
  deriving DecidableEq, Repr

/-- A `geometry_msgs::Twist` whose six components may each be NaN. -/
structure Twist where
  linear : Vec3
  angular : Vec3
  deriving DecidableEq, Repr

/-- A `builtin_interfaces::Duration`: seconds and a sub-second nanosecond
component. -/
structure MsgDuration where
  sec : Int
  nanosec : Nat
  deriving DecidableEq, Repr

/-- The cartesian `ControllerReferenceMsg` (a multi-DOF trajectory point with
one transform, one twist and a duration).  The rotation's x/y/z slots carry
Euler angles in this controller. -/
structure CartRefMsg where
  translation : Vec3
  rotation : QuatO
  velocities : Twist
  time_from_start : MsgDuration
  deriving DecidableEq, Repr

/-- The single-point `JointTrajectory` handed to the trajectory sampler. -/
structure TrajPoint where
  joint_names : List String
  positions : List OptQ
  velocities : List OptQ
  time_from_start : ℚ
  deriving DecidableEq, Repr

/-- The external tf2 Euler/quaternion conversion routines
(`getRPY`/`setRPY`), an external collaborator the callback is parametric in. -/
structure Tf2Lib where
  rpy_to_quaternion : OptQ × OptQ × OptQ → QuatO
  quaternion_to_rpy : QuatO → OptQ × OptQ × OptQ

/-- The parameters of the cartesian trajectory generator relevant here. -/
structure CtgParams where
  joints : List String
  velocity_in_local_frame : Bool
  deriving DecidableEq, Repr

/-- The reference-side state of the controller: the two reference cells, the
two cached transforms captured on reference receive, and the last trajectory
message handed to the sampler. -/
structure CtgRefState where
  reference_world : CartRefMsg
  reference_local : CartRefMsg
  transform_world_to_command : TransformQ
  transform_command_to_world : TransformQ
  traj : TrajPoint
  deriving DecidableEq, Repr

/-- Seconds of the trajectory point's duration, as computed by the callback:
it inspects only the `nanosec` field — a zero `nanosec` selects the 10 ms
default and otherwise only the `nanosec` component is converted, the `sec`
component being dropped in both branches. -/
def traj_time_from_start (d : MsgDuration) : ℚ :=
  if d.nanosec = 0 then 1 / 100 else (d.nanosec : ℚ) / 1000000000

/-- Builds the single trajectory point from the (possibly frame-adjusted)
message: positions from translation x/y/z and rotation x/y/z, velocities from
the twist, in the order of the six configured joints. -/
def mkTrajPoint (p : CtgParams) (m : CartRefMsg) (dur : ℚ) : TrajPoint :=
  { joint_names := p.joints
    positions := [m.translation.x, m.translation.y, m.translation.z,
      m.rotation.x, m.rotation.y, m.rotation.z]
    velocities := [m.velocities.linear.x, m.velocities.linear.y, m.velocities.linear.z,
      m.velocities.angular.x, m.velocities.angular.y, m.velocities.angular.z]
    time_from_start := dur }

/-- `CartesianTrajectoryGenerator::reference_callback`.  The incoming shared
message is first written to the world cell; when `velocity_in_local_frame` is
set, the tf buffer is consulted (`lookup = none` models a
`tf2::TransformException`, which keeps the previously cached transforms), the
message's translation and Euler-angle rotation are overwritten in place with
their world→command transformed values, and the same mutated message is
written to the local cell.  Both cells therefore end up holding the adjusted
message.  Finally the trajectory point is built from the mutated message. -/
def reference_callback (p : CtgParams) (lib : Tf2Lib)
    (lookup : Option (TransformQ × TransformQ)) (s : CtgRefState)
    (msg : CartRefMsg) : CtgRefState :=
  let dur := traj_time_from_start msg.time_from_start
  if p.velocity_in_local_frame then
    let tfs := match lookup with
      | some wc_cw => wc_cw
      | none => (s.transform_world_to_command, s.transform_command_to_world)
    let t_wc := tfs.1
    let t_cw := tfs.2
    let translation' := rotVec (rotationMatrix t_wc.rotation) msg.translation
    let orientation_angles := (msg.rotation.x, msg.rotation.y, msg.rotation.z)
    let quaternion_world := lib.rpy_to_quaternion orientation_angles
    let quaternion_command := quatTransform t_wc.rotation quaternion_world
    let angles' := lib.quaternion_to_rpy quaternion_command
    let msg' : CartRefMsg := { msg with
      translation := translation'
      rotation := { x := angles'.1, y := angles'.2.1, z := angles'.2.2, w := msg.rotation.w } }
    { reference_world := msg'
      reference_local := msg'
      transform_world_to_command := t_wc
      transform_command_to_world := t_cw
      traj := mkTrajPoint p msg' dur }
  else
    { s with reference_world := msg, traj := mkTrajPoint p msg dur }

/-! ### Spec-side definition for claim C6 -/

/-- Machine epsilon for IEEE double precision. -/
def machineEps : ℚ := 1 / 2 ^ 52

/-- Replace a NaN component by zero (per the spec: rotation requires finite
input). -/
def zeroNaN : OptQ → OptQ
  | none => some 0
  | some v => some v

/-- Zero every NaN component of a 3-vector. -/
def zeroNaNVec (v : Vec3) : Vec3 :=
  { x := zeroNaN v.x, y := zeroNaN v.y, z := zeroNaN v.z }

/-- Re-tag a transformed component whose magnitude is at most machine epsilon
to the NaN sentinel (per the spec's near-zero re-tagging rule). -/
def retagNearZero : OptQ → OptQ
  | some v => if |v| ≤ machineEps then none else some v
  | none => none

/-- Near-zero re-tagging of every component of a 3-vector. -/
def retagNearZeroVec (v : Vec3) : Vec3 :=
  { x := retagNearZero v.x, y := retagNearZero v.y, z := retagNearZero v.z }

/-- Modelled from the spec (section 4.4 step 2 and 4.3), for comparison with
the source: the frame-adjusted velocities claim C6 says intake publishes —
NaN components zeroed, the linear and angular 3-vectors rotated independently
by the command→world transform, and near-zero results re-tagged to NaN. -/
def claimC6_transformed_velocities (t_cw : TransformQ) (vel : Twist) : Twist :=
  { linear := retagNearZeroVec (rotVec (rotationMatrix t_cw.rotation) (zeroNaNVec vel.linear))
    angular := retagNearZeroVec (rotVec (rotationMatrix t_cw.rotation) (zeroNaNVec vel.angular)) }

end cartesian_trajectory_generator

namespace ros2_ackermann_cont

/-- Modelled from the spec: the two-valued operating mode of section 4.5
(`NORMAL`/`ATTENUATED`), named `FAST`/`SLOW` as in the tests of
`src/test/test_ackermann_steering_controller_ros2.cpp`. -/
inductive control_mode_type where
  | FAST
  | SLOW
  deriving DecidableEq, Repr

/-- Modelled from the spec: an inbound reference message of the chainable
controller (section 6) — timestamp, joint names, per-DOF displacements and
velocities (possibly NaN) and a possibly-NaN duration. -/
structure ControllerReferenceMsg where
  stamp : ℚ
  joint_names : List String
  displacements : List OptQ
  velocities : List OptQ
  duration : OptQ
  deriving DecidableEq, Repr

/-- Modelled from the spec: the state of the chainable controller whose
implementation is not under src (only its tests are) — the configured joint
set, the reference timeout, the stored reference snapshot (`input_ref_`), the
exported reference interface slots, the hardware command values and the
operating mode. -/
structure AckState where
  joint_names : List String
  ref_timeout : ℚ
  input_ref : ControllerReferenceMsg
  reference_interfaces : List OptQ
  joint_command_values : List OptQ
  control_mode : control_mode_type
  deriving DecidableEq, Repr

/-- Modelled from the spec (section 4.5): the interface-stage scale factor —
1 in FAST/NORMAL, 1/2 in SLOW/ATTENUATED. -/
def interface_scale : control_mode_type → ℚ
  | .FAST => 1
  | .SLOW => 1 / 2

/-- Modelled from the spec (section 4.5): the command-stage scale factor —
1 in FAST/NORMAL, an additional 1/2 in SLOW/ATTENUATED. -/
def command_scale : control_mode_type → ℚ
  | .FAST => 1
  | .SLOW => 1 / 2

/-- Modelled from the spec (sections 4.2 and 4.4) and the repository's tests:
the reference subscriber callback of the chainable controller.  The tests pin
its behavior: only the DOF count of `joint_names` is validated
(`test_message_accepted` accepts a right-sized message whose names differ
from the configured ones), a message older than a nonzero timeout is
discarded leaving the stored snapshot untouched (`test_message_timeout`), and
a fresh message — or any message when the timeout is zero — replaces the
snapshot. -/
def reference_callback (now : ℚ) (msg : ControllerReferenceMsg) (s : AckState) :
    AckState :=
  if msg.joint_names.length = s.joint_names.length then
    if s.ref_timeout = 0 ∨ now - msg.stamp ≤ s.ref_timeout then
      { s with input_ref := msg }
    else s
  else s

/-- Modelled from the spec (section 4.6): one pass over the interface slots,
slot `i` taking the interface-stage scaled displacement when displacement `i`
is not NaN and keeping its previous value otherwise. -/
def stage1_interfaces (mode : control_mode_type) (disp : List OptQ) :
    Nat → List OptQ → List OptQ
  | _, [] => []
  | i, r :: rs =>
    (match disp.getD i none with
     | some d => some (interface_scale mode * d)
     | none => r) :: stage1_interfaces mode disp (i + 1) rs

/-- Modelled from the spec and the tests: the in-place mutation of the stored
displacements during the reference-export stage — in SLOW mode the stored
displacement is halved as it is exported (`test_update_logic_chainable_slow`
observes the stored value at half the raw value after the cycle), and with a
zero timeout the consumed displacement is reset to NaN
(`test_ref_timeout_zero_for_update`).  Only indices covered by the interface
slots are touched. -/
def stage1_displacements (mode : control_mode_type) (timeout_zero : Bool)
    (nItf : Nat) : Nat → List OptQ → List OptQ
  | _, [] => []
  | i, d :: ds =>
    (if i < nItf then
      match d with
      | some v => if timeout_zero then none else some (interface_scale mode * v)
      | none => none
     else d) :: stage1_displacements mode timeout_zero nItf (i + 1) ds

/-- Modelled from the spec (sections 4.2 and 4.6): `update_reference_from_subscribers`
of the chainable controller.  The staleness gate is evaluated with this
cycle's `now`: when the timeout is zero or the stored reference's age is
within the timeout (inclusive), non-NaN displacements are copied — scaled by
the interface-stage factor — into the interface slots (mutating the stored
snapshot as `stage1_displacements` describes); a stale reference leaves the
state untouched. -/
def update_reference_from_subscribers (now : ℚ) (s : AckState) : AckState :=
  let age := now - s.input_ref.stamp
  if age ≤ s.ref_timeout ∨ s.ref_timeout = 0 then
    { s with
      reference_interfaces :=
        stage1_interfaces s.control_mode s.input_ref.displacements 0 s.reference_interfaces
      input_ref := { s.input_ref with
        displacements :=
          stage1_displacements s.control_mode (s.ref_timeout == 0)
            s.reference_interfaces.length 0 s.input_ref.displacements } }
  else s

/-- Modelled from the spec (section 4.6 step c): writing the interface slots
to the hardware command interfaces — command `i` takes the command-stage
scaled slot value when slot `i` is not NaN, and keeps its previous setpoint
when the slot is NaN. -/
def write_commands (mode : control_mode_type) (itf : List OptQ) :
    Nat → List OptQ → List OptQ
  | _, [] => []
  | i, c :: cs =>
    (match itf.getD i none with
     | some v => some (command_scale mode * v)
     | none => c) :: write_commands mode itf (i + 1) cs

/-- Modelled from the spec (section 4.6): `update_and_write_commands` of the
chainable controller (non-chained path) — the interface slots, after the
command-stage scaling, are written to the hardware commands, NaN slots left
un-written. -/
def update_and_write_commands (s : AckState) : AckState :=
  { s with joint_command_values :=
      write_commands s.control_mode s.reference_interfaces 0 s.joint_command_values }

/-- Modelled from the spec: one non-chained control cycle — pull the latest
fresh reference into the interface slots, then write the commands. -/
def control_cycle (now : ℚ) (s : AckState) : AckState :=
  update_and_write_commands (update_reference_from_subscribers now s)

/-! ### Concrete scenarios from `test_ackermann_steering_controller_ros2.cpp`
(`TEST_DISPLACEMENT = 23.24 = 581/25`, `ref_timeout = 0.1`, a hardware
command preset to `111`). -/

/-- The reset reference snapshot present after activation. -/
def ackRef0 : ControllerReferenceMsg :=
  { stamp := 0, joint_names := ["joint1"], displacements := [none],
    velocities := [none], duration := none }

/-- A reference whose age at `now = 0` is `0.2`, beyond the `0.1` timeout. -/
def ackMsgStale : ControllerReferenceMsg :=
  { stamp := -1/5, joint_names := ["joint1"], displacements := [some (581/25)],
    velocities := [none], duration := none }

/-- A reference whose age at `now = 0` is `0.01`, within the `0.1` timeout. -/
def ackMsgFresh : ControllerReferenceMsg :=
  { stamp := -1/100, joint_names := ["joint1"], displacements := [some (581/25)],
    velocities := [none], duration := none }

/-- A fresh reference with the right DOF count but a different joint name. -/
def ackMsgWrongName : ControllerReferenceMsg :=
  { ackMsgFresh with joint_names := ["other_joint"] }

/-- A fresh reference with the wrong DOF count (two names for one joint). -/
def ackMsgWrongCount : ControllerReferenceMsg :=
  { ackMsgFresh with joint_names := ["joint1", "joint2"] }

/-- Activated controller: reset snapshot, NaN interface slot, command 111. -/
def ackIdle : AckState :=
  { joint_names := ["joint1"], ref_timeout := 1/10, input_ref := ackRef0,
    reference_interfaces := [none], joint_command_values := [some 111],
    control_mode := .FAST }

/-- The idle controller after the stale reference was force-stored (the tests
write it into the cell directly). -/
def ackStale : AckState := { ackIdle with input_ref := ackMsgStale }

/-- The idle controller holding a fresh reference, FAST mode. -/
def ackFastFresh : AckState := { ackIdle with input_ref := ackMsgFresh }

/-- The idle controller holding a fresh reference, SLOW mode. -/
def ackSlowFresh : AckState := { ackFastFresh with control_mode := .SLOW }

/-- The idle controller with a zero timeout holding a fresh reference. -/
def ackTimeoutZero : AckState := { ackFastFresh with ref_timeout := 0 }

end ros2_ackermann_cont

namespace cartesian_trajectory_generator

/-! ### Concrete fixtures for the cartesian controller -/

/-- Quaternion of a 90° rotation about z (tf2 handles non-unit quaternions by
normalizing inside `setRotation`). -/
def quatZ90 : QuatQ := { x := 0, y := 0, z := 1, w := 1 }

/-- Quaternion of a −90° rotation about z, the inverse of `quatZ90`. -/
def quatZ90inv : QuatQ := { x := 0, y := 0, z := -1, w := 1 }

/-- The cached/looked-up world→command transform of the fixtures. -/
def tfWC : TransformQ := { rotation := quatZ90 }

/-- The cached/looked-up command→world transform of the fixtures. -/
def tfCW : TransformQ := { rotation := quatZ90inv }

/-- A concrete stand-in for the external tf2 Euler/quaternion conversions;
the claims settled on the fixtures concern fields that do not depend on these
conversions. -/
def trivLib : Tf2Lib :=
  { rpy_to_quaternion := fun _ => { x := some 0, y := some 0, z := some 0, w := some 1 }
    quaternion_to_rpy := fun _ => (some 0, some 0, some 0) }

/-- Six cartesian DOFs with local-frame velocity semantics configured. -/
def p6 : CtgParams :=
  { joints := ["x", "y", "z", "rx", "ry", "rz"], velocity_in_local_frame := true }

/-- Six cartesian DOFs without local-frame velocity semantics. -/
def p6world : CtgParams := { p6 with velocity_in_local_frame := false }

/-- The all-NaN reset reference message. -/
def nanCartMsg : CartRefMsg :=
  { translation := { x := none, y := none, z := none }
    rotation := { x := none, y := none, z := none, w := none }
    velocities := { linear := { x := none, y := none, z := none },
                    angular := { x := none, y := none, z := none } }
    time_from_start := { sec := 0, nanosec := 0 } }

/-- Controller reference state right after configuration, with the fixture
transforms cached. -/
def ctgState0 : CtgRefState :=
  { reference_world := nanCartMsg, reference_local := nanCartMsg
    transform_world_to_command := tfWC, transform_command_to_world := tfCW
    traj := mkTrajPoint p6 nanCartMsg (1/100) }

/-- An incoming reference with translation (1,0,0), finite linear velocity
(1,2,3) and an angular velocity with one NaN component. -/
def ctgMsgIn : CartRefMsg :=
  { translation := { x := some 1, y := some 0, z := some 0 }
    rotation := { x := some 0, y := some 0, z := some 0, w := none }
    velocities := { linear := { x := some 1, y := some 2, z := some 3 },
                    angular := { x := none, y := some 5, z := some 6 } }
    time_from_start := { sec := 0, nanosec := 0 } }

/-- An incoming reference that explicitly specifies a duration of exactly one
second (`sec = 1`, `nanosec = 0`). -/
def ctgMsgOneSecond : CartRefMsg :=
  { ctgMsgIn with time_from_start := { sec := 1, nanosec := 0 } }

/-- An incoming reference that explicitly specifies a duration of 1.5 seconds
(`sec = 1`, `nanosec = 500000000`). -/
def ctgMsgOnePointFive : CartRefMsg :=
  { ctgMsgIn with time_from_start := { sec := 1, nanosec := 500000000 } }

/-- Example configured limits: position in [−1, 1], velocity limit 2. -/
def limitsCfg : JointLimits :=
  { nanLimits with
    min_position := some (-1), max_position := some 1, has_position_limits := true
    max_velocity := some 2, has_velocity_limits := true }

/-- Controller with two command joints whose active limits still equal the
configured ones. -/
def limitsStateEx : LimitsState :=
  { command_joint_names := ["joint1", "joint2"]
    configured_joint_limits := [limitsCfg, limitsCfg]
    joint_limits := [limitsCfg, limitsCfg] }

/-- A request entry raising the velocity limit to 5, all else NaN. -/
def velPatch : LimitsMsg := { nanLimitsMsg with max_velocity := some 5 }

/-- A malformed request: one name, two limit entries (sizes differ). -/
def reqSizeMismatch : SetLimitsRequest :=
  { names := ["joint1"], limits := [velPatch, nanLimitsMsg] }

/-- A request naming one valid and one unknown joint, sizes matching. -/
def reqUnknownJoint : SetLimitsRequest :=
  { names := ["joint1", "no_such_joint"], limits := [velPatch, nanLimitsMsg] }

/-- The request restricted to its entries whose joint name is a known command
joint (unknown-name entries deleted). -/
def knownSubrequest (cmdNames : List String) (req : SetLimitsRequest) :
    SetLimitsRequest :=
  let pairs := (req.names.zip req.limits).filter
    fun p => (cmdNames.indexOf? p.1).isSome
  { names := pairs.map Prod.fst, limits := pairs.map Prod.snd }

end cartesian_trajectory_generator


/-! ## Theorems -/

namespace ros2_ackermann_cont

/-- Claim C2 fails on the code: a reference that passes DOF-count validation
but is already older than the configured nonzero timeout is NOT published
into the cell — the stored reference snapshot and its timestamp are left
untouched, exactly as `test_message_timeout` asserts. -/
theorem C2_stale_message_not_stored :
    ackMsgStale.joint_names.length = ackIdle.joint_names.length ∧
    ackIdle.ref_timeout ≠ 0 ∧
    ackIdle.ref_timeout < (0 : ℚ) - ackMsgStale.stamp ∧
    reference_callback 0 ackMsgStale ackIdle = ackIdle ∧
    ackIdle.input_ref ≠ ackMsgStale := by
  refine ⟨rfl, ?_, ?_, ?_, ?_⟩
  · norm_num [ackIdle]
  · norm_num [ackIdle, ackMsgStale]
  · norm_num [reference_callback, ackIdle, ackMsgStale, ackRef0]
  · simp [ackIdle, ackMsgStale, ackRef0]

/-- C2 as amended: intake publishes a DOF-validated message into the cell
only when the timeout is zero or the message's age is within the timeout
(inclusive); a validated but stale message leaves the cell — snapshot and
timestamp — unchanged.  Staleness is additionally evaluated when the control
loop reads the cell each cycle. -/
theorem C2_intake_staleness_gate (s : AckState) (msg : ControllerReferenceMsg)
    (now : ℚ) (hdof : msg.joint_names.length = s.joint_names.length) :
    (s.ref_timeout = 0 ∨ now - msg.stamp ≤ s.ref_timeout →
      reference_callback now msg s = { s with input_ref := msg }) ∧
    (s.ref_timeout ≠ 0 → s.ref_timeout < now - msg.stamp →
      reference_callback now msg s = s) := by
  constructor
  · intro hfresh
    simp only [reference_callback]
    rw [if_pos hdof, if_pos hfresh]
  · intro htz hstale
    have hrej : ¬(s.ref_timeout = 0 ∨ now - msg.stamp ≤ s.ref_timeout) := by
      rintro (h | h)
      · exact htz h
      · exact absurd hstale (not_lt.mpr h)
    simp only [reference_callback]
    rw [if_pos hdof, if_neg hrej]

/-- Witness for `C2_intake_staleness_gate` at the concrete fresh-message
scenario of `test_message_accepted`. -/
theorem C2_intake_staleness_gate_witness :
    reference_callback 0 ackMsgFresh ackIdle = { ackIdle with input_ref := ackMsgFresh } :=
  (C2_intake_staleness_gate ackIdle ackMsgFresh 0 rfl).1
    (Or.inr (by norm_num [ackIdle, ackMsgFresh]))

/-- Claim C7 fails on the code: a fresh reference with the right DOF count
but joint names different from the configured ones is accepted and replaces
the stored snapshot (as `test_message_accepted` asserts — there the accepted
message's first joint name differs from the configured one). -/
theorem C7_wrong_names_still_accepted :
    ackMsgWrongName.joint_names ≠ ackIdle.joint_names ∧
    ackMsgWrongName.joint_names.length = ackIdle.joint_names.length ∧
    (0 : ℚ) - ackMsgWrongName.stamp ≤ ackIdle.ref_timeout ∧
    (reference_callback 0 ackMsgWrongName ackIdle).input_ref = ackMsgWrongName ∧
    ackMsgWrongName ≠ ackIdle.input_ref := by
  refine ⟨?_, rfl, ?_, ?_, ?_⟩
  · simp [ackMsgWrongName, ackMsgFresh, ackIdle]
  · norm_num [ackIdle, ackMsgWrongName, ackMsgFresh]
  · norm_num [reference_callback, ackIdle, ackMsgWrongName, ackMsgFresh, ackRef0]
  · simp [ackIdle, ackMsgWrongName, ackMsgFresh, ackRef0]

/-- C7 as amended: only the DOF count is validated — a reference whose
`joint_names` length differs from the configured joint count is discarded
silently and the whole controller state, stored snapshot included, is
unchanged; the joint names themselves are never compared. -/
theorem C7_count_mismatch_discarded (s : AckState) (msg : ControllerReferenceMsg)
    (now : ℚ) (h : msg.joint_names.length ≠ s.joint_names.length) :
    reference_callback now msg s = s := by
  simp only [reference_callback]
  rw [if_neg h]

/-- Witness for `C7_count_mismatch_discarded` at the concrete scenario of
`test_message_wrong_num_joints` (two names sent to a one-joint controller). -/
theorem C7_count_mismatch_discarded_witness :
    reference_callback 0 ackMsgWrongCount ackIdle = ackIdle :=
  C7_count_mismatch_discarded ackIdle ackMsgWrongCount 0 (by
    simp [ackMsgWrongCount, ackMsgFresh, ackIdle])

end ros2_ackermann_cont

namespace ros2_ackermann_cont

/-- Indexing anywhere into an all-NaN slot list yields NaN. -/
theorem getD_eq_none_of_forall_none {l : List OptQ} (h : ∀ x ∈ l, x = none) :
    ∀ j : Nat, l[j]?.getD none = none := by
  induction l with
  | nil => intro j; simp
  | cons a as ih =>
    intro j
    cases j with
    | zero => simpa using h a (by simp)
    | succ j => simpa using ih (fun x hx => h x (by simp [hx])) j

/-- Writing commands from all-NaN interface slots changes nothing. -/
theorem write_commands_id_of_none (mode : control_mode_type) (itf : List OptQ)
    (h : ∀ x ∈ itf, x = none) : ∀ (i : Nat) (cs : List OptQ),
    write_commands mode itf i cs = cs := by
  intro i cs
  induction cs generalizing i with
  | nil => rfl
  | cons c cs ih => simp [write_commands, getD_eq_none_of_forall_none h, ih]

/-- Claim C4: in FAST (NORMAL) mode one non-chained cycle with a fresh
reference of raw value `v` exports `v` to the interface slot and writes `v`
to the hardware command; in SLOW (ATTENUATED) mode it exports `v/2` and
writes `v/4` — the interface-stage and command-stage ½ factors compound. -/
theorem C4_mode_scaling_compounds (s : AckState) (now v : ℚ) (r c : OptQ)
    (hitf : s.reference_interfaces = [r]) (hcmd : s.joint_command_values = [c])
    (hdisp : s.input_ref.displacements = [some v])
    (hfresh : now - s.input_ref.stamp ≤ s.ref_timeout) :
    (s.control_mode = .FAST →
      (control_cycle now s).reference_interfaces = [some v] ∧
      (control_cycle now s).joint_command_values = [some v]) ∧
    (s.control_mode = .SLOW →
      (control_cycle now s).reference_interfaces = [some (v / 2)] ∧
      (control_cycle now s).joint_command_values = [some (v / 4)]) := by
  constructor
  · intro hmode
    simp [control_cycle, update_reference_from_subscribers, update_and_write_commands,
      write_commands, stage1_interfaces, stage1_displacements, hfresh, hitf, hcmd, hdisp,
      hmode, interface_scale, command_scale]
  · intro hmode
    simp [control_cycle, update_reference_from_subscribers, update_and_write_commands,
      write_commands, stage1_interfaces, stage1_displacements, hfresh, hitf, hcmd, hdisp,
      hmode, interface_scale, command_scale]
    constructor <;> ring

/-- Witness for `C4_mode_scaling_compounds` at the concrete SLOW scenario of
`test_update_logic_chainable_slow`: raw value 23.24 yields interface value
11.62 and hardware command 5.81. -/
theorem C4_mode_scaling_compounds_witness :
    (control_cycle 0 ackSlowFresh).reference_interfaces = [some (581 / 50)] ∧
    (control_cycle 0 ackSlowFresh).joint_command_values = [some (581 / 100)] := by
  have h := (C4_mode_scaling_compounds ackSlowFresh 0 (581 / 25) none (some 111) rfl rfl rfl
    (by norm_num [ackSlowFresh, ackFastFresh, ackIdle, ackMsgFresh])).2 rfl
  refine ⟨?_, ?_⟩
  · rw [h.1]; norm_num
  · rw [h.2]; norm_num

/-- Claim C5: when the timeout is nonzero and the stored reference's age
exceeds it, one control cycle leaves the interface slots (and the stored
snapshot) unchanged, and — when no slot holds a prior good value — leaves
every hardware command at its previous value. -/
theorem C5_stale_reference_preserves_outputs (s : AckState) (now : ℚ)
    (htz : s.ref_timeout ≠ 0) (hstale : s.ref_timeout < now - s.input_ref.stamp) :
    (control_cycle now s).reference_interfaces = s.reference_interfaces ∧
    (control_cycle now s).input_ref = s.input_ref ∧
    ((∀ x ∈ s.reference_interfaces, x = none) →
      (control_cycle now s).joint_command_values = s.joint_command_values) := by
  have hrej : ¬(now - s.input_ref.stamp ≤ s.ref_timeout ∨ s.ref_timeout = 0) := by
    rintro (h | h)
    · exact absurd hstale (not_lt.mpr h)
    · exact htz h
  have h1 : update_reference_from_subscribers now s = s := by
    simp only [update_reference_from_subscribers]
    rw [if_neg hrej]
  refine ⟨?_, ?_, ?_⟩
  · simp [control_cycle, h1, update_and_write_commands]
  · simp [control_cycle, h1, update_and_write_commands]
  · intro hnone
    simp [control_cycle, h1, update_and_write_commands, write_commands_id_of_none _ _ hnone]

/-- Witness for `C5_stale_reference_preserves_outputs` at the concrete
scenario of `test_update_logic_chainable_fast`: a stale reference with value
23.24, slots NaN, command 111 — the command stays 111 and the slot stays
NaN after the cycle. -/
theorem C5_stale_reference_preserves_outputs_witness :
    (control_cycle 0 ackStale).reference_interfaces = ackStale.reference_interfaces ∧
    (control_cycle 0 ackStale).joint_command_values = ackStale.joint_command_values := by
  have h := C5_stale_reference_preserves_outputs ackStale 0
    (by norm_num [ackStale, ackIdle]) (by norm_num [ackStale, ackIdle, ackMsgStale])
  exact ⟨h.1, h.2.2 (by simp [ackStale, ackIdle])⟩

/-- Claim C10: with a zero reference timeout, one FAST non-chained cycle on a
stored reference with value `v` writes `v` to the hardware command and then
resets the stored displacement to NaN — the reference is consumed once. -/
theorem C10_timeout_zero_consumes_reference (s : AckState) (now v : ℚ) (r c : OptQ)
    (hitf : s.reference_interfaces = [r]) (hcmd : s.joint_command_values = [c])
    (hdisp : s.input_ref.displacements = [some v])
    (htz : s.ref_timeout = 0) (hmode : s.control_mode = .FAST) :
    (control_cycle now s).joint_command_values = [some v] ∧
    (control_cycle now s).input_ref.displacements = [none] := by
  simp [control_cycle, update_reference_from_subscribers, update_and_write_commands,
    write_commands, stage1_interfaces, stage1_displacements, htz, hmode, hitf, hcmd, hdisp,
    interface_scale, command_scale]

/-- Witness for `C10_timeout_zero_consumes_reference` at the concrete
scenario of `test_ref_timeout_zero_for_update` (value 23.24). -/
theorem C10_timeout_zero_consumes_reference_witness :
    (control_cycle 0 ackTimeoutZero).joint_command_values = [some (581 / 25)] ∧
    (control_cycle 0 ackTimeoutZero).input_ref.displacements = [none] :=
  C10_timeout_zero_consumes_reference ackTimeoutZero 0 (581 / 25) none (some 111)
    rfl rfl rfl rfl rfl

end ros2_ackermann_cont

namespace cartesian_trajectory_generator

/-- Claim C3 fails on the code: `reference_callback` mutates the captured
message in place when local-frame semantics are configured and stores the
same adjusted message in both cells.  At a concrete reference with raw
translation (1,0,0) and a 90° world→command rotation, the world cell ends up
holding translation (0,1,0) — the raw value is not retained — and the world
and local cells hold the identical adjusted message, so raw and
frame-adjusted references are not separately queryable. -/
theorem C3_raw_snapshot_mutated_in_place :
    p6.velocity_in_local_frame = true ∧
    ctgMsgIn.translation = { x := some 1, y := some 0, z := some 0 } ∧
    (reference_callback p6 trivLib (some (tfWC, tfCW)) ctgState0 ctgMsgIn).reference_world.translation
      = { x := some 0, y := some 1, z := some 0 } ∧
    (reference_callback p6 trivLib (some (tfWC, tfCW)) ctgState0 ctgMsgIn).reference_world.translation
      ≠ ctgMsgIn.translation ∧
    (reference_callback p6 trivLib (some (tfWC, tfCW)) ctgState0 ctgMsgIn).reference_world
      = (reference_callback p6 trivLib (some (tfWC, tfCW)) ctgState0 ctgMsgIn).reference_local := by
  refine ⟨rfl, rfl, ?_, ?_, ?_⟩
  · norm_num [reference_callback, p6, trivLib, tfWC, tfCW, quatZ90, quatZ90inv, ctgState0,
      ctgMsgIn, nanCartMsg, rotationMatrix, rotVec, oAdd, oSub, oScale, quatTransform,
      mkTrajPoint, traj_time_from_start]
  · norm_num [reference_callback, p6, trivLib, tfWC, tfCW, quatZ90, quatZ90inv, ctgState0,
      ctgMsgIn, nanCartMsg, rotationMatrix, rotVec, oAdd, oSub, oScale, quatTransform,
      mkTrajPoint, traj_time_from_start]
  · simp [reference_callback, p6]

/-- C3 as amended: when local-frame semantics are configured, the incoming
message is frame-adjusted in place and the one adjusted message is what both
the world and the local cell hold after the callback — the cells are aliases
of the same value, not separate raw/adjusted copies. -/
theorem C3_both_cells_hold_adjusted_message (p : CtgParams) (lib : Tf2Lib)
    (lookup : Option (TransformQ × TransformQ)) (s : CtgRefState) (msg : CartRefMsg)
    (h : p.velocity_in_local_frame = true) :
    (reference_callback p lib lookup s msg).reference_world =
      (reference_callback p lib lookup s msg).reference_local := by
  simp [reference_callback, h]

/-- Witness for `C3_both_cells_hold_adjusted_message` at the concrete
fixture reference. -/
theorem C3_both_cells_hold_adjusted_message_witness :
    (reference_callback p6 trivLib (some (tfWC, tfCW)) ctgState0 ctgMsgIn).reference_world =
      (reference_callback p6 trivLib (some (tfWC, tfCW)) ctgState0 ctgMsgIn).reference_local :=
  C3_both_cells_hold_adjusted_message p6 trivLib (some (tfWC, tfCW)) ctgState0 ctgMsgIn rfl

/-- Claim C6 fails on the code: at a concrete accepted reference with finite
linear velocity (1,2,3) and a 90° command→world rotation, the published
frame-adjusted (local) reference keeps the raw velocities untouched, while
the claim's pipeline — zero NaN components, rotate linear and angular
3-vectors independently, re-tag near-zero components to NaN — would produce
(2,−1,3) and (5,NaN,6).  No velocity rotation, NaN zeroing or near-zero
re-tagging happens at intake. -/
theorem C6_velocities_not_transformed_at_intake :
    p6.velocity_in_local_frame = true ∧
    (reference_callback p6 trivLib (some (tfWC, tfCW)) ctgState0 ctgMsgIn).reference_local.velocities
      = ctgMsgIn.velocities ∧
    claimC6_transformed_velocities tfCW ctgMsgIn.velocities =
      { linear := { x := some 2, y := some (-1), z := some 3 },
        angular := { x := some 5, y := none, z := some 6 } } ∧
    claimC6_transformed_velocities tfCW ctgMsgIn.velocities ≠ ctgMsgIn.velocities := by
  refine ⟨rfl, ?_, ?_, ?_⟩
  · simp [reference_callback, p6]
  · norm_num [claimC6_transformed_velocities, tfCW, quatZ90inv, rotationMatrix, rotVec,
      zeroNaNVec, zeroNaN, retagNearZeroVec, retagNearZero, oAdd, oSub, oScale,
      machineEps, ctgMsgIn]
  · norm_num [claimC6_transformed_velocities, tfCW, quatZ90inv, rotationMatrix, rotVec,
      zeroNaNVec, zeroNaN, retagNearZeroVec, retagNearZero, oAdd, oSub, oScale,
      machineEps, ctgMsgIn]

/-- C6 as amended: with local-frame semantics configured, intake transforms
only the translation and the Euler-angle rotation of the message; the
velocities of both stored references are exactly the raw input velocities —
they are not zeroed, not rotated and not re-tagged at intake. -/
theorem C6_velocities_pass_through (p : CtgParams) (lib : Tf2Lib)
    (lookup : Option (TransformQ × TransformQ)) (s : CtgRefState) (msg : CartRefMsg)
    (h : p.velocity_in_local_frame = true) :
    (reference_callback p lib lookup s msg).reference_local.velocities = msg.velocities ∧
    (reference_callback p lib lookup s msg).reference_world.velocities = msg.velocities := by
  constructor <;> simp [reference_callback, h]

/-- Witness for `C6_velocities_pass_through` at the concrete fixture
reference. -/
theorem C6_velocities_pass_through_witness :
    (reference_callback p6 trivLib (some (tfWC, tfCW)) ctgState0 ctgMsgIn).reference_local.velocities
      = ctgMsgIn.velocities ∧
    (reference_callback p6 trivLib (some (tfWC, tfCW)) ctgState0 ctgMsgIn).reference_world.velocities
      = ctgMsgIn.velocities :=
  C6_velocities_pass_through p6 trivLib (some (tfWC, tfCW)) ctgState0 ctgMsgIn rfl

/-- Claim C9 is right and the code is wrong: the callback decides whether a
duration was specified by looking only at the `nanosec` field and converts
only that field, dropping `sec`.  A message explicitly specifying a duration
of exactly 1 s (`sec = 1`, `nanosec = 0`) is treated as unspecified and gets
the 10 ms default, and a message specifying 1.5 s (`sec = 1`,
`nanosec = 500000000`) yields 0.5 s. -/
theorem C9_duration_seconds_component_dropped :
    ctgMsgOneSecond.time_from_start = { sec := 1, nanosec := 0 } ∧
    (reference_callback p6world trivLib none ctgState0 ctgMsgOneSecond).traj.time_from_start
      = 1 / 100 ∧
    ctgMsgOnePointFive.time_from_start = { sec := 1, nanosec := 500000000 } ∧
    (reference_callback p6world trivLib none ctgState0 ctgMsgOnePointFive).traj.time_from_start
      = 1 / 2 := by
  refine ⟨rfl, ?_, rfl, ?_⟩
  · norm_num [reference_callback, p6world, p6, ctgMsgOneSecond, ctgMsgIn,
      traj_time_from_start, mkTrajPoint]
  · norm_num [reference_callback, p6world, p6, ctgMsgOnePointFive, ctgMsgIn,
      traj_time_from_start, mkTrajPoint]

/-- Claim C1 is right and the code is wrong: on a names/limits size mismatch
the callback sets `ok = false` but does not return — its own warning says
"Ignoring service call!", yet the entry loop still runs and installs the new
limits.  At a concrete request with one name and two limit entries, the
response is `ok = false` and joint1's velocity limit is nevertheless changed
from 2 to 5. -/
theorem C1_size_mismatch_still_applies_entries :
    reqSizeMismatch.names.length ≠ reqSizeMismatch.limits.length ∧
    set_joint_limits_service_callback limitsStateEx reqSizeMismatch =
      .ok ({ limitsStateEx with joint_limits :=
        [{ limitsCfg with max_velocity := some 5 }, limitsCfg] }, false) ∧
    ({ limitsCfg with max_velocity := some 5 } : JointLimits) ≠ limitsCfg := by
  refine ⟨by simp [reqSizeMismatch], ?_, by simp [limitsCfg, nanLimits]⟩
  simp [set_joint_limits_service_callback, process_limit_entries, limitsStateEx, reqSizeMismatch,
    velPatch, nanLimitsMsg, limitsCfg, nanLimits, apply_limits_entry,
    update_limit_from_request, update_pos_limits_from_request, List.indexOf?]

end cartesian_trajectory_generator

namespace cartesian_trajectory_generator

/-- The response `ok` flag computed by the entry loop: the initial flag
(and-ed) with "all request names are known command joints".  Needs the names
list not to outrun the limits list, which rules out the undefined
out-of-range read. -/
theorem process_limit_entries_ok_flag (cmdNames : List String)
    (configured : List JointLimits) (ns : List String) :
    ∀ (ls : List LimitsMsg) (cur : List JointLimits) (ok : Bool),
    ns.length ≤ ls.length →
    (process_limit_entries cmdNames configured ns ls cur ok).map Prod.snd =
      .ok (ok && ns.all fun n => (cmdNames.indexOf? n).isSome) := by
  induction ns with
  | nil => intro ls cur ok h; simp [process_limit_entries, Except.map]
  | cons n ns ih =>
    intro ls cur ok h
    cases hidx : cmdNames.indexOf? n with
    | some j =>
      cases ls with
      | nil => simp at h
      | cons l ls' =>
        simp only [process_limit_entries, hidx]
        rw [ih ls' _ ok (by simpa using h)]
        simp [hidx]
    | none =>
      simp only [process_limit_entries, hidx]
      rw [ih (ls.drop 1) cur false (by simp at h ⊢; omega)]
      simp [hidx]

/-- Deleting the unknown-name entries of a request does not change the
limits the entry loop produces: processing is per entry, an unknown name
only clears the flag and skips its own entry. -/
theorem process_limit_entries_skip_unknown (cmdNames : List String)
    (configured : List JointLimits) (ns : List String) :
    ∀ (ls : List LimitsMsg) (cur : List JointLimits) (ok ok' : Bool),
    ns.length ≤ ls.length →
    (process_limit_entries cmdNames configured ns ls cur ok).map Prod.fst =
      (process_limit_entries cmdNames configured
        (((ns.zip ls).filter fun p => (cmdNames.indexOf? p.1).isSome).map Prod.fst)
        (((ns.zip ls).filter fun p => (cmdNames.indexOf? p.1).isSome).map Prod.snd)
        cur ok').map Prod.fst := by
  induction ns with
  | nil => intro ls cur ok ok' h; simp [process_limit_entries, Except.map]
  | cons n ns ih =>
    intro ls cur ok ok' h
    cases ls with
    | nil => simp at h
    | cons l ls' =>
      cases hidx : cmdNames.indexOf? n with
      | some j =>
        simp only [List.zip_cons_cons, List.filter_cons, hidx, Option.isSome_some,
          List.map_cons, process_limit_entries]
        exact ih ls' _ ok ok' (by simpa using h)
      | none =>
        simp only [List.zip_cons_cons, List.filter_cons, hidx, Option.isSome_none,
          List.map_cons, process_limit_entries, List.drop_one, List.tail_cons]
        exact ih ls' cur false ok' (by simpa using h)

/-- Claim C8: a limits request with matching names/limits lengths that names
at least one unknown joint gets response `ok = false`, yet the resulting
active limits are exactly those produced by the same request with its
unknown-name entries deleted — every known-joint entry is still applied and
only the unknown-name entries are skipped; rejection is per entry, not
all-or-nothing. -/
theorem C8_unknown_entry_skipped_rest_applied (s : LimitsState) (req : SetLimitsRequest)
    (hlen : req.names.length = req.limits.length)
    (n : String) (hn : n ∈ req.names)
    (hunknown : s.command_joint_names.indexOf? n = none) :
    (set_joint_limits_service_callback s req).map Prod.snd = .ok false ∧
    (set_joint_limits_service_callback s req).map (fun r => r.1.joint_limits) =
      (set_joint_limits_service_callback s
        (knownSubrequest s.command_joint_names req)).map (fun r => r.1.joint_limits) := by
  have hle : req.names.length ≤ req.limits.length := hlen.le
  have hall : (req.names.all fun m => (s.command_joint_names.indexOf? m).isSome) = false := by
    simp only [List.all_eq_false]
    exact ⟨n, hn, by simp [hunknown]⟩
  have hflag := process_limit_entries_ok_flag s.command_joint_names s.configured_joint_limits
    req.names req.limits s.joint_limits (req.names.length == req.limits.length) hle
  cases hp : process_limit_entries s.command_joint_names s.configured_joint_limits
      req.names req.limits s.joint_limits (req.names.length == req.limits.length) with
  | error e =>
    rw [hp] at hflag
    simp [Except.map] at hflag
  | ok pr =>
    rw [hp] at hflag
    have hsnd : pr.2 = false := by
      have h2 := hflag
      simp only [Except.map, hall, Bool.and_false] at h2
      exact Except.ok.inj h2
    have hsub : process_limit_entries s.command_joint_names s.configured_joint_limits
        (knownSubrequest s.command_joint_names req).names
        (knownSubrequest s.command_joint_names req).limits s.joint_limits
        ((knownSubrequest s.command_joint_names req).names.length ==
          (knownSubrequest s.command_joint_names req).limits.length) =
        process_limit_entries s.command_joint_names s.configured_joint_limits
        (((req.names.zip req.limits).filter
          fun p => (s.command_joint_names.indexOf? p.1).isSome).map Prod.fst)
        (((req.names.zip req.limits).filter
          fun p => (s.command_joint_names.indexOf? p.1).isSome).map Prod.snd)
        s.joint_limits
        ((knownSubrequest s.command_joint_names req).names.length ==
          (knownSubrequest s.command_joint_names req).limits.length) := rfl
    have hskip := process_limit_entries_skip_unknown s.command_joint_names
      s.configured_joint_limits req.names req.limits s.joint_limits
      (req.names.length == req.limits.length)
      ((knownSubrequest s.command_joint_names req).names.length ==
        (knownSubrequest s.command_joint_names req).limits.length) hle
    rw [hp, ← hsub] at hskip
    constructor
    · simp [set_joint_limits_service_callback, hp, hsnd, Except.map]
    · cases hq : process_limit_entries s.command_joint_names s.configured_joint_limits
          (knownSubrequest s.command_joint_names req).names
          (knownSubrequest s.command_joint_names req).limits s.joint_limits
          ((knownSubrequest s.command_joint_names req).names.length ==
            (knownSubrequest s.command_joint_names req).limits.length) with
      | error e =>
        rw [hq] at hskip
        simp [Except.map] at hskip
      | ok qr =>
        rw [hq] at hskip
        have hfst : pr.1 = qr.1 := by
          simpa [Except.map] using hskip
        simp [set_joint_limits_service_callback, hp, hq, hfst, Except.map]

/-- Witness for `C8_unknown_entry_skipped_rest_applied` at the concrete
request naming one valid joint (velocity patch to 5) and one unknown
joint. -/
theorem C8_unknown_entry_skipped_rest_applied_witness :
    (set_joint_limits_service_callback limitsStateEx reqUnknownJoint).map Prod.snd
      = .ok false ∧
    (set_joint_limits_service_callback limitsStateEx reqUnknownJoint).map
        (fun r => r.1.joint_limits) =
      (set_joint_limits_service_callback limitsStateEx
        (knownSubrequest limitsStateEx.command_joint_names reqUnknownJoint)).map
        (fun r => r.1.joint_limits) :=
  C8_unknown_entry_skipped_rest_applied limitsStateEx reqUnknownJoint rfl
    "no_such_joint" (by simp [reqUnknownJoint])
    (by simp [limitsStateEx, List.indexOf?])

end cartesian_trajectory_generator
